import Mathlib

/-!
Verification of the xiaomi_scale_data_scraper repository.

This file gives a shallow embedding of the parts of the program that the
specification's claims are about:

* `calculate_bmi`, `calculate_bmr`, `estimate_body_fat_percentage`
  (src/calculations.py) — the pure metric calculator;
* `parse_measurement_data` (src/parser.py) — the byte-payload decoder;
* `is_measurement_stable` and `handle_measurement`
  (src/extractor.py, class MiScaleDataExtractor) — the stability detector
  and per-notification session controller;
* `start_measurement` and `stop_measurement` (src/app.py) — session control.

Python floats are modelled as rationals (ℚ), byte buffers as `List ℕ`,
timestamps as rationals passed explicitly (the code reads `datetime.now()`
once per ingestion), and the external Store's success/failure as an explicit
boolean input.  Fallible code returns `Option`.
-/

/-! ## Metric calculator (src/calculations.py) -/

/-- Python's `str.lower()`: character-wise lowering (agrees with
`Char.toLower` on every character the program compares against). -/
def pyLower (s : String) : String := ⟨s.data.map Char.toLower⟩

/-- `calculate_bmi` from src/calculations.py: `height_m = height_cm / 100;
return weight / (height_m * height_m)`. -/
def calculate_bmi (weight height_cm : ℚ) : ℚ :=
  let height_m := height_cm / 100
  weight / (height_m * height_m)

/-- `calculate_bmr` from src/calculations.py: Mifflin-St Jeor, branching on
`gender.lower() == 'male'`. -/
def calculate_bmr (weight height_cm : ℚ) (age : ℤ) (gender : String) : ℚ :=
  if pyLower gender = "male" then
    10 * weight + 6.25 * height_cm - 5 * age + 5
  else
    10 * weight + 6.25 * height_cm - 5 * age - 161

/-- `estimate_body_fat_percentage` from src/calculations.py: Deurenberg
formula, branching on `gender.lower() == 'male'`. -/
def estimate_body_fat_percentage (bmi : ℚ) (age : ℤ) (gender : String) : ℚ :=
  if pyLower gender = "male" then
    1.20 * bmi + 0.23 * age - 16.2
  else
    1.20 * bmi + 0.23 * age - 5.4

/-! ## Measurement decoder (src/parser.py) -/

/-- The dictionary returned by `parse_measurement_data` (src/parser.py),
restricted to its computed fields. -/
structure ParsedMeasurement where
  weight : ℚ
  impedance : ℕ
  bmi : ℚ
  bmr : ℚ
  body_fat : ℚ
  deriving Repr, DecidableEq

/-- `parse_measurement_data` from src/parser.py.  The Python body indexes
`raw_data[12]`, `raw_data[11]`, `raw_data[10]`, `raw_data[9]`; an index past
the end of the bytearray raises (modelled as `none`).  Otherwise
`weight = ((raw[12] << 8) + raw[11]) / 200` and
`impedance = (raw[10] << 8) + raw[9]`, and the derived metrics are computed
from the caller-supplied profile. -/
def parse_measurement_data (raw : List ℕ) (age : ℤ) (height_cm : ℚ)
    (gender : String) : Option ParsedMeasurement :=
  match raw[12]?, raw[11]?, raw[10]?, raw[9]? with
  | some b12, some b11, some b10, some b9 =>
    let weight : ℚ := (b12 * 256 + b11 : ℕ) / 200
    let impedance : ℕ := b10 * 256 + b9
    let bmi := calculate_bmi weight height_cm
    some { weight := weight, impedance := impedance, bmi := bmi,
           bmr := calculate_bmr weight height_cm age gender,
           body_fat := estimate_body_fat_percentage bmi age gender }
  | _, _, _, _ => none

/-- Encoding of a (scaled weight, impedance) pair into the 13-byte layout the
decoder reads, following the spec's round-trip property: weight·200 and
impedance as little-endian 16-bit fields at offsets 11–12 and 9–10. -/
def encode_measurement (scaled_weight impedance : ℕ) : List ℕ :=
  [0, 0, 0, 0, 0, 0, 0, 0, 0,
   impedance % 256, impedance / 256,
   scaled_weight % 256, scaled_weight / 256]

/-! ## Stability detector and session controller (src/extractor.py) -/

/-- The configuration constants the detector reads (src/config.py):
`STABLE_READINGS_REQUIRED`, `WEIGHT_TOLERANCE`, `MIN_STABLE_DURATION_SECONDS`. -/
structure Config where
  STABLE_READINGS_REQUIRED : ℕ
  WEIGHT_TOLERANCE : ℚ
  MIN_STABLE_DURATION_SECONDS : ℚ
  deriving Repr, DecidableEq

/-- The mutable fields of `MiScaleDataExtractor` (src/extractor.py,
`__init__`): the sliding window of recent readings with their timestamps,
the stability clock, the one-shot stored flag, the running flag, and the
user profile passed to the decoder. -/
structure ExtractorState where
  is_running : Bool
  age : ℤ
  height_cm : ℚ
  gender : String
  recent_readings : List ℚ
  reading_timestamps : List ℚ
  stable_start_time : Option ℚ
  measurement_stored : Bool
  deriving Repr, DecidableEq

/-- The initial extractor state built by `MiScaleDataExtractor.__init__`. -/
def initExtractor (age : ℤ) (height_cm : ℚ) (gender : String) : ExtractorState :=
  { is_running := true, age := age, height_cm := height_cm, gender := gender,
    recent_readings := [], reading_timestamps := [],
    stable_start_time := none, measurement_stored := false }

/-- Minimum of a nonempty list, as Python's `min` computes it (the program
only evaluates it on nonempty windows). -/
def listMin : List ℚ → ℚ
  | [] => 0
  | x :: xs => xs.foldl min x

/-- Maximum of a nonempty list, as Python's `max` computes it. -/
def listMax : List ℚ → ℚ
  | [] => 0
  | x :: xs => xs.foldl max x

/-- The window update at the top of `_is_measurement_stable`: append the new
reading and timestamp, then `pop(0)` both lists when the readings list has
grown past `STABLE_READINGS_REQUIRED`. -/
def pushWindow (n : ℕ) (rr ts : List ℚ) (w t : ℚ) : List ℚ × List ℚ :=
  let rr0 := rr ++ [w]
  let ts0 := ts ++ [t]
  if n < rr0.length then (rr0.tail, ts0.tail) else (rr0, ts0)

/-- `MiScaleDataExtractor._is_measurement_stable` (src/extractor.py, lines
42–69).  `now` stands for the `datetime.now()` read at the top of the call;
the returned boolean is the Python return value and the returned state
records the mutations to `recent_readings`, `reading_timestamps` and
`stable_start_time`. -/
def is_measurement_stable (cfg : Config) (s : ExtractorState) (weight now : ℚ) :
    ExtractorState × Bool :=
  let win := pushWindow cfg.STABLE_READINGS_REQUIRED
    s.recent_readings s.reading_timestamps weight now
  let s1 := { s with recent_readings := win.1, reading_timestamps := win.2 }
  if win.1.length < cfg.STABLE_READINGS_REQUIRED then
    (s1, false)
  else
    let min_weight := listMin win.1
    let max_weight := listMax win.1
    if cfg.WEIGHT_TOLERANCE < max_weight - min_weight then
      ({ s1 with stable_start_time := none }, false)
    else
      match s1.stable_start_time with
      | none => ({ s1 with stable_start_time := some now }, false)
      | some t0 =>
        (s1, decide (cfg.MIN_STABLE_DURATION_SECONDS ≤ now - t0))

/-- The result vocabulary of the specification's Stability Detector
contract (`ingest(weight, now) -> StabilityResult`, spec §4.1). -/
inductive StabilityResult where
  | NotEnoughData
  | WeightDrifting (spread : ℚ)
  | JustStabilized
  | Stabilizing (elapsed : ℚ)
  | Stable (weight : ℚ)
  deriving Repr, DecidableEq

/-- The Stability Detector algorithm as the specification words it
(spec §4.1, steps 1–7), over the same state type: append and evict FIFO,
`NotEnoughData` below N, spread `>` tolerance drifts and clears the clock,
unset clock is set to `now` with `JustStabilized`, elapsed below the minimum
duration gives `Stabilizing`, otherwise `Stable`. -/
def ingestSpec (cfg : Config) (s : ExtractorState) (weight now : ℚ) :
    ExtractorState × StabilityResult :=
  let win := pushWindow cfg.STABLE_READINGS_REQUIRED
    s.recent_readings s.reading_timestamps weight now
  let s1 := { s with recent_readings := win.1, reading_timestamps := win.2 }
  if win.1.length < cfg.STABLE_READINGS_REQUIRED then
    (s1, .NotEnoughData)
  else
    let spread := listMax win.1 - listMin win.1
    if cfg.WEIGHT_TOLERANCE < spread then
      ({ s1 with stable_start_time := none }, .WeightDrifting spread)
    else
      match s1.stable_start_time with
      | none => ({ s1 with stable_start_time := some now }, .JustStabilized)
      | some t0 =>
        let elapsed := now - t0
        if elapsed < cfg.MIN_STABLE_DURATION_SECONDS then (s1, .Stabilizing elapsed)
        else (s1, .Stable weight)

/-- Status levels passed to `_emit_status` (src/extractor.py). -/
inductive Level where
  | info
  | progress
  | success
  | error
  deriving Repr, DecidableEq

/-- `MiScaleDataExtractor._handle_measurement` (src/extractor.py, lines
71–126).  `data` is the notification payload, `now` the wall-clock time of
the call, and `storeOk` the value `store_measurement` would return if it is
called (the Store is external).  Result: the new state, the list of emitted
status-event levels, and whether a store write was attempted. -/
def handle_measurement (cfg : Config) (s : ExtractorState) (data : List ℕ)
    (now : ℚ) (storeOk : Bool) : ExtractorState × List Level × Bool :=
  if s.measurement_stored then (s, [], false)
  else
    match parse_measurement_data data s.age s.height_cm s.gender with
    | none => (s, [Level.error], false)
    | some m =>
      let r := is_measurement_stable cfg s m.weight now
      if r.2 then
        if storeOk then
          ({ r.1 with measurement_stored := true, is_running := false },
           [Level.success], true)
        else (r.1, [], true)
      else (r.1, [Level.progress], false)

/-- Feed a list of `(payload, time, store outcome)` notifications through
`_handle_measurement`, threading the state, and count the successful store
writes (a write succeeds when it is attempted and the Store reports
success). -/
def runHandler (cfg : Config) (s : ExtractorState) :
    List (List ℕ × ℚ × Bool) → ExtractorState × ℕ
  | [] => (s, 0)
  | (data, now, ok) :: rest =>
    let r := handle_measurement cfg s data now ok
    let tl := runHandler cfg r.1 rest
    (tl.1, (if r.2.2 && ok then 1 else 0) + tl.2)

/-- The boolean results of feeding a list of `(weight, time)` samples
through `_is_measurement_stable`, threading the state. -/
def ingestResults (cfg : Config) (s : ExtractorState) :
    List (ℚ × ℚ) → List Bool
  | [] => []
  | (w, t) :: rest =>
    let r := is_measurement_stable cfg s w t
    r.2 :: ingestResults cfg r.1 rest

/-- Checks, along a run of `_is_measurement_stable`, that at every step the
post-append window is either not yet full or has spread strictly above the
tolerance — the hypothesis of the spec's never-Stable property. -/
def allWindowsDrift (cfg : Config) (s : ExtractorState) :
    List (ℚ × ℚ) → Bool
  | [] => true
  | (w, t) :: rest =>
    let r := is_measurement_stable cfg s w t
    (decide (r.1.recent_readings.length < cfg.STABLE_READINGS_REQUIRED) ||
     decide (cfg.WEIGHT_TOLERANCE <
       listMax r.1.recent_readings - listMin r.1.recent_readings)) &&
    allWindowsDrift cfg r.1 rest

/-! ## Session control (src/app.py) -/

/-- The configuration defaults `start_measurement` falls back on
(src/config.py): `SCALE_MAC`, `AGE`, `HEIGHT_CM`, `GENDER`. -/
structure AppConfig where
  SCALE_MAC : String
  AGE : ℤ
  HEIGHT_CM : ℚ
  GENDER : String
  deriving Repr, DecidableEq

/-- The arguments `run_extractor_in_thread` passes into the
`MiScaleDataExtractor` it installs, plus the instance's `is_running` flag. -/
structure InstInfo where
  inst_running : Bool
  inst_address : String
  inst_age : ℤ
  inst_height : ℚ
  inst_gender : String
  deriving Repr, DecidableEq

/-- The module-level mutable state of src/app.py that session control reads
and writes: whether `extractor_thread` is set and alive, the installed
`extractor_instance` (if any), and `current_status["is_running"]`. -/
structure AppState where
  thread_alive : Option Bool
  inst : Option InstInfo
  is_running : Bool
  deriving Repr, DecidableEq

/-- The module state at import time: no thread, no instance, not running. -/
def initApp : AppState :=
  { thread_alive := none, inst := none, is_running := false }

/-- The optional request fields of `POST /api/start` (body or query
string); `none` models an absent field. -/
structure StartRequest where
  address : Option String
  age : Option ℤ
  height_cm : Option ℚ
  gender : Option String
  deriving Repr, DecidableEq

/-- Python's `x or default` for an optional string: `None` and the empty
string are falsy and fall back to the default. -/
def pyOrStr (v : Option String) (d : String) : String :=
  match v with
  | none => d
  | some s => if s = "" then d else s

/-- Python's `x or default` for an optional integer: `None` and `0` are
falsy and fall back to the default. -/
def pyOrInt (v : Option ℤ) (d : ℤ) : ℤ :=
  match v with
  | none => d
  | some a => if a = 0 then d else a

/-- Python's `x or default` for an optional float: `None` and `0.0` are
falsy and fall back to the default. -/
def pyOrRat (v : Option ℚ) (d : ℚ) : ℚ :=
  match v with
  | none => d
  | some a => if a = 0 then d else a

/-- The HTTP outcomes of `POST /api/start`: `started` is the 200 response,
every other constructor is one of the 400 responses. -/
inductive StartOutcome where
  | started
  | already_running
  | missing_address
  | invalid_age
  | invalid_height
  | invalid_gender
  deriving Repr, DecidableEq

/-- The first step of `start_measurement`: when a finished (dead) extractor
thread is left over, reset `current_status["is_running"]`. -/
def reset_dead_thread (st : AppState) : AppState :=
  match st.thread_alive with
  | some false => { st with is_running := false }
  | _ => st

/-- `start_measurement` (src/app.py, lines 101–157): normalize
`is_running` when a dead thread is left over, reject with 400 while a
session is in progress, resolve each profile field with Python `or`
defaulting, validate the resolved values, signal any still-alive thread's
extractor to stop, and install a fresh extractor thread. -/
def start_measurement (c : AppConfig) (st : AppState) (req : StartRequest) :
    AppState × StartOutcome :=
  let st := reset_dead_thread st
  if st.is_running then (st, .already_running)
  else
    let scale_address := pyOrStr req.address c.SCALE_MAC
    let user_age := pyOrInt req.age c.AGE
    let user_height := pyOrRat req.height_cm c.HEIGHT_CM
    let user_gender := pyOrStr req.gender c.GENDER
    if scale_address = "" then (st, .missing_address)
    else if user_age ≤ 0 then (st, .invalid_age)
    else if user_height ≤ 0 then (st, .invalid_height)
    else if user_gender = "" ∨
        (pyLower user_gender ≠ "male" ∧ pyLower user_gender ≠ "female") then
      (st, .invalid_gender)
    else
      let st :=
        match st.thread_alive with
        | some true =>
          { st with inst := st.inst.map (fun (i : InstInfo) => { i with inst_running := false }) }
        | _ => st
      ({ st with
          thread_alive := some true,
          inst := some { inst_running := true, inst_address := scale_address,
                         inst_age := user_age, inst_height := user_height,
                         inst_gender := user_gender },
          is_running := true },
       .started)

/-- The HTTP outcomes of `POST /api/stop`: `stopped` is the 200 response,
`no_measurement` the 400 "No measurement in progress" response. -/
inductive StopOutcome where
  | stopped
  | no_measurement
  deriving Repr, DecidableEq

/-- `stop_measurement` (src/app.py, lines 160–176): 400 when
`current_status["is_running"]` is false; otherwise signal the extractor
instance to stop and clear `is_running`. -/
def stop_measurement (st : AppState) : AppState × StopOutcome :=
  if !st.is_running then (st, .no_measurement)
  else
    let st := { st with inst := st.inst.map (fun (i : InstInfo) => { i with inst_running := false }) }
    ({ st with is_running := false }, .stopped)

/-! ## Concrete fixtures used by witnesses and counterexamples -/

/-- A small detector configuration: N = 2, tolerance 0.1 kg, 3 s. -/
def cfg0 : Config :=
  { STABLE_READINGS_REQUIRED := 2, WEIGHT_TOLERANCE := 1/10,
    MIN_STABLE_DURATION_SECONDS := 3 }

/-- A fresh extractor for the default profile (25, 178 cm, male). -/
def ext0 : ExtractorState := initExtractor 25 178 "male"

/-- Extractor state whose one-shot stored flag is already set. -/
def extStored : ExtractorState := { ext0 with measurement_stored := true }

/-- Extractor one reading short of a full stable window, clock set at 0. -/
def extC4 : ExtractorState :=
  { ext0 with recent_readings := [70], reading_timestamps := [0],
              stable_start_time := some 0 }

/-- Extractor with one reading in the window and the clock set. -/
def ext1 : ExtractorState :=
  { ext0 with recent_readings := [70], reading_timestamps := [0],
              stable_start_time := some 0 }

/-- A 13-byte payload encoding weight 70.00 kg and impedance 500. -/
def payload70 : List ℕ := [0, 0, 0, 0, 0, 0, 0, 0, 0, 244, 1, 176, 54]

/-- The measurement `parse_measurement_data` decodes from `payload70` with
the default profile. -/
def parsed70 : ParsedMeasurement :=
  { weight := 70, impedance := 500, bmi := calculate_bmi 70 178,
    bmr := calculate_bmr 70 178 25 "male",
    body_fat := estimate_body_fat_percentage (calculate_bmi 70 178) 25 "male" }

/-- Three spaced-out notifications of the same payload with a willing Store. -/
def demoInputs : List (List ℕ × ℚ × Bool) :=
  [(payload70, 0, true), (payload70, 10, true), (payload70, 20, true)]

/-- The configured defaults of src/config.py. -/
def appCfg0 : AppConfig :=
  { SCALE_MAC := "D0:3E:7D:76:AF:C6", AGE := 25, HEIGHT_CM := 178,
    GENDER := "male" }

/-- App state with a live extractor thread and a session in progress. -/
def activeApp : AppState :=
  { thread_alive := some true,
    inst := some { inst_running := true, inst_address := "D0:3E:7D:76:AF:C6",
                   inst_age := 25, inst_height := 178, inst_gender := "male" },
    is_running := true }

/-- A start request that supplies no field. -/
def emptyReq : StartRequest :=
  { address := none, age := none, height_cm := none, gender := none }

/-! ## C9 and C10: the metric calculator -/

/-- C9: the metric calculator is pure and deterministic and computes exactly
the stated formulas: `bmi = weight / (height_cm/100)^2`; Mifflin-St Jeor BMR
with `+5` for male and `−161` for female; Deurenberg body fat with `−16.2`
for male and `−5.4` for female. -/
theorem metric_calculator_formulas (w h b : ℚ) (a : ℤ) :
    calculate_bmi w h = w / (h / 100) ^ 2 ∧
    calculate_bmr w h a "male" = 10 * w + 6.25 * h - 5 * a + 5 ∧
    calculate_bmr w h a "female" = 10 * w + 6.25 * h - 5 * a - 161 ∧
    estimate_body_fat_percentage b a "male" = 1.20 * b + 0.23 * a - 16.2 ∧
    estimate_body_fat_percentage b a "female" = 1.20 * b + 0.23 * a - 5.4 := by
  refine ⟨?_, ?_, ?_, ?_, ?_⟩ <;>
    simp only [calculate_bmi, calculate_bmr, estimate_body_fat_percentage]
  · ring
  · rw [if_pos (by decide)]
  · rw [if_neg (by decide)]
  · rw [if_pos (by decide)]
  · rw [if_neg (by decide)]

/-- C10: `calculate_bmr` and `estimate_body_fat_percentage` take the male
branch exactly when the lowercased gender string is `"male"`, and the female
branch for every other string (including `"female"` in any casing, `"other"`
and `""`); no gender value causes a failure. -/
theorem gender_branch_selection (w h b : ℚ) (a : ℤ) (g : String) :
    (pyLower g = "male" →
      calculate_bmr w h a g = 10 * w + 6.25 * h - 5 * a + 5 ∧
      estimate_body_fat_percentage b a g = 1.20 * b + 0.23 * a - 16.2) ∧
    (pyLower g ≠ "male" →
      calculate_bmr w h a g = 10 * w + 6.25 * h - 5 * a - 161 ∧
      estimate_body_fat_percentage b a g = 1.20 * b + 0.23 * a - 5.4) := by
  constructor <;> intro hg <;>
    simp [calculate_bmr, estimate_body_fat_percentage, hg]

/-- Witness for C10 at `"MALE"`, `"other"` and `"Female"`. -/
theorem gender_branch_selection_witness :
    calculate_bmr 70 178 30 "MALE" = 10 * 70 + 6.25 * 178 - 5 * 30 + 5 ∧
    calculate_bmr 70 178 30 "other" = 10 * 70 + 6.25 * 178 - 5 * 30 - 161 ∧
    estimate_body_fat_percentage 22 30 "Female" = 1.20 * 22 + 0.23 * 30 - 5.4 := by
  refine ⟨?_, ?_, ?_⟩
  · exact ((gender_branch_selection 70 178 22 30 "MALE").1 (by decide)).1
  · exact ((gender_branch_selection 70 178 22 30 "other").2 (by decide)).1
  · exact ((gender_branch_selection 70 178 22 30 "Female").2 (by decide)).2

/-! ## C7 and C8: the measurement decoder -/

/-- `parse_measurement_data` returns `none` exactly when the payload is
shorter than the 13 bytes its highest index (12) requires. -/
theorem parse_none_iff (raw : List ℕ) (age : ℤ) (hc : ℚ) (g : String) :
    parse_measurement_data raw age hc g = none ↔ raw.length < 13 := by
  constructor
  · intro h
    by_contra hlen
    push_neg at hlen
    rw [parse_measurement_data,
        List.getElem?_eq_getElem (by omega : 12 < raw.length),
        List.getElem?_eq_getElem (by omega : 11 < raw.length),
        List.getElem?_eq_getElem (by omega : 10 < raw.length),
        List.getElem?_eq_getElem (by omega : 9 < raw.length)] at h
    simp at h
  · intro h
    rw [parse_measurement_data, List.getElem?_eq_none (by omega : raw.length ≤ 12)]

/-- C7: decoding fails exactly when the payload is shorter than 13 bytes,
and `_handle_measurement` contains the failure: it emits a single error
status event, attempts no store write, and returns with the extractor state
(window, timestamps, stability clock, stored flag, running flag) exactly as
it was. -/
theorem malformed_payload_handling (raw : List ℕ) (age : ℤ) (hc : ℚ)
    (g : String) (cfg : Config) (s : ExtractorState) (now : ℚ) (storeOk : Bool) :
    (parse_measurement_data raw age hc g = none ↔ raw.length < 13) ∧
    (s.measurement_stored = false → raw.length < 13 →
      handle_measurement cfg s raw now storeOk = (s, [Level.error], false)) := by
  refine ⟨parse_none_iff raw age hc g, fun hstored hlen => ?_⟩
  have hp : parse_measurement_data raw s.age s.height_cm s.gender = none :=
    (parse_none_iff raw s.age s.height_cm s.gender).mpr hlen
  simp [handle_measurement, hstored, hp]

/-- Witness for C7 on a 5-byte payload fed to a fresh session. -/
theorem malformed_payload_handling_witness :
    parse_measurement_data [0, 0, 0, 0, 0] 25 178 "male" = none ∧
    handle_measurement cfg0 ext0 [0, 0, 0, 0, 0] 0 true =
      (ext0, [Level.error], false) :=
  ⟨(malformed_payload_handling [0, 0, 0, 0, 0] 25 178 "male" cfg0 ext0 0
      true).1.mpr (by decide),
   (malformed_payload_handling [0, 0, 0, 0, 0] 25 178 "male" cfg0 ext0 0
      true).2 rfl (by decide)⟩

/-- C8: the decoder reads weight as the little-endian two-byte field at
offsets 11 (low) and 12 (high) divided by 200 and impedance as the
little-endian two-byte field at offsets 9 (low) and 10 (high), so decoding
the 13-byte encoding of any representable pair reproduces it exactly. -/
theorem decoder_layout_roundtrip (raw : List ℕ) (sw imp : ℕ) (age : ℤ)
    (hc : ℚ) (g : String) (hsw : sw < 65536) (himp : imp < 65536) :
    (13 ≤ raw.length →
      (parse_measurement_data raw age hc g).map (fun m => (m.weight, m.impedance)) =
        some (((raw.getD 12 0 * 256 + raw.getD 11 0 : ℕ) : ℚ) / 200,
              raw.getD 10 0 * 256 + raw.getD 9 0)) ∧
    (parse_measurement_data (encode_measurement sw imp) age hc g).map
        (fun m => (m.weight, m.impedance)) = some ((sw : ℚ) / 200, imp) := by
  constructor
  · intro h
    rw [parse_measurement_data,
        List.getElem?_eq_getElem (by omega : 12 < raw.length),
        List.getElem?_eq_getElem (by omega : 11 < raw.length),
        List.getElem?_eq_getElem (by omega : 10 < raw.length),
        List.getElem?_eq_getElem (by omega : 9 < raw.length)]
    simp [List.getD_eq_getElem?_getD,
          List.getElem?_eq_getElem (by omega : 12 < raw.length),
          List.getElem?_eq_getElem (by omega : 11 < raw.length),
          List.getElem?_eq_getElem (by omega : 10 < raw.length),
          List.getElem?_eq_getElem (by omega : 9 < raw.length)]
  · simp only [parse_measurement_data, encode_measurement]
    norm_num [List.getElem?_cons_succ, List.getElem?_cons_zero]
    have h1 : ((sw / 256 : ℕ) : ℚ) * 256 + ((sw % 256 : ℕ) : ℚ) = (sw : ℚ) := by
      exact_mod_cast (by omega : sw / 256 * 256 + sw % 256 = sw)
    constructor
    · rw [h1]
    · omega

/-- Witness for C8 at weight 70.00 kg (scaled 14000) and impedance 500. -/
theorem decoder_layout_roundtrip_witness :
    (parse_measurement_data (encode_measurement 14000 500) 25 178 "male").map
      (fun m => (m.weight, m.impedance)) = some ((70 : ℚ), 500) := by
  have h := (decoder_layout_roundtrip (encode_measurement 14000 500) 14000 500
    25 178 "male" (by decide) (by decide)).2
  rw [show ((14000 : ℕ) : ℚ) / 200 = 70 by norm_num] at h
  exact h

/-! ## C1 and C2: the stability detector -/

/-- The sliding-window update keeps the readings list within the configured
bound: one append followed by at most one `pop(0)`. -/
theorem pushWindow_length_le (n : ℕ) (rr ts : List ℚ) (w t : ℚ)
    (h : rr.length ≤ n) : (pushWindow n rr ts w t).1.length ≤ n := by
  simp only [pushWindow]
  split
  · simpa using h
  · simp only [List.length_append, List.length_cons, List.length_nil] at *
    omega

/-- C1: `_is_measurement_stable` follows exactly the specified ingestion
algorithm: it produces the same state as the spec's step-by-step `ingest`
(append then FIFO eviction past N, drift clears the clock, first stable
sample sets the clock), its boolean result is `true` exactly when the spec
returns `Stable`, and the window length never exceeds N. -/
theorem stability_ingest_refines_spec (cfg : Config) (s : ExtractorState)
    (w now : ℚ) (hN : 1 ≤ cfg.STABLE_READINGS_REQUIRED)
    (hlen : s.recent_readings.length ≤ cfg.STABLE_READINGS_REQUIRED) :
    (is_measurement_stable cfg s w now).1 = (ingestSpec cfg s w now).1 ∧
    ((is_measurement_stable cfg s w now).2 = true ↔
      (ingestSpec cfg s w now).2 = StabilityResult.Stable w) ∧
    (is_measurement_stable cfg s w now).1.recent_readings.length ≤
      cfg.STABLE_READINGS_REQUIRED := by
  have hwl : (pushWindow cfg.STABLE_READINGS_REQUIRED s.recent_readings
      s.reading_timestamps w now).1.length ≤ cfg.STABLE_READINGS_REQUIRED :=
    pushWindow_length_le _ _ _ _ _ hlen
  by_cases h1 : (pushWindow cfg.STABLE_READINGS_REQUIRED s.recent_readings
      s.reading_timestamps w now).1.length < cfg.STABLE_READINGS_REQUIRED
  · simp [is_measurement_stable, ingestSpec, h1, hwl]
  · by_cases h2 : cfg.WEIGHT_TOLERANCE <
        listMax (pushWindow cfg.STABLE_READINGS_REQUIRED s.recent_readings
          s.reading_timestamps w now).1 -
        listMin (pushWindow cfg.STABLE_READINGS_REQUIRED s.recent_readings
          s.reading_timestamps w now).1
    · simp [is_measurement_stable, ingestSpec, h1, h2, hwl]
    · rcases hss : s.stable_start_time with _ | t0
      · simp [is_measurement_stable, ingestSpec, h1, h2, hss, hwl]
      · by_cases h3 : now - t0 < cfg.MIN_STABLE_DURATION_SECONDS
        · simp [is_measurement_stable, ingestSpec, h1, h2, hss, h3, hwl,
                not_le.mpr h3]
        · simp [is_measurement_stable, ingestSpec, h1, h2, hss, h3, hwl,
                not_lt.mp h3]

/-- Witness for C1: a second sample at t = 10 on a window holding one
reading with the clock set at 0, under N = 2, tolerance 0.1, duration 3. -/
theorem stability_ingest_refines_spec_witness :
    (is_measurement_stable cfg0 ext1 70 10).1 = (ingestSpec cfg0 ext1 70 10).1 ∧
    ((is_measurement_stable cfg0 ext1 70 10).2 = true ↔
      (ingestSpec cfg0 ext1 70 10).2 = StabilityResult.Stable 70) ∧
    (is_measurement_stable cfg0 ext1 70 10).1.recent_readings.length ≤
      cfg0.STABLE_READINGS_REQUIRED :=
  stability_ingest_refines_spec cfg0 ext1 70 10 (by decide) (by decide)

theorem isStable_window (cfg : Config) (s : ExtractorState) (w now : ℚ) :
    (is_measurement_stable cfg s w now).1.recent_readings =
      (pushWindow cfg.STABLE_READINGS_REQUIRED s.recent_readings
        s.reading_timestamps w now).1 := by
  simp only [is_measurement_stable]
  split
  · rfl
  · split
    · rfl
    · split <;> rfl

theorem isStable_false_of_drift (cfg : Config) (s : ExtractorState) (w now : ℚ)
    (h : (is_measurement_stable cfg s w now).1.recent_readings.length <
           cfg.STABLE_READINGS_REQUIRED ∨
         cfg.WEIGHT_TOLERANCE <
           listMax (is_measurement_stable cfg s w now).1.recent_readings -
           listMin (is_measurement_stable cfg s w now).1.recent_readings) :
    (is_measurement_stable cfg s w now).2 = false := by
  rw [isStable_window] at h
  by_cases h1 : (pushWindow cfg.STABLE_READINGS_REQUIRED s.recent_readings
      s.reading_timestamps w now).1.length < cfg.STABLE_READINGS_REQUIRED
  · simp [is_measurement_stable, h1]
  · by_cases h2 : cfg.WEIGHT_TOLERANCE <
        listMax (pushWindow cfg.STABLE_READINGS_REQUIRED s.recent_readings
          s.reading_timestamps w now).1 -
        listMin (pushWindow cfg.STABLE_READINGS_REQUIRED s.recent_readings
          s.reading_timestamps w now).1
    · simp [is_measurement_stable, h1, h2]
    · rcases h with h | h
      · exact absurd h h1
      · exact absurd h h2

theorem isStable_drift_clears (cfg : Config) (s : ExtractorState) (w now : ℚ)
    (hfull : cfg.STABLE_READINGS_REQUIRED ≤
      (is_measurement_stable cfg s w now).1.recent_readings.length)
    (hdrift : cfg.WEIGHT_TOLERANCE <
      listMax (is_measurement_stable cfg s w now).1.recent_readings -
      listMin (is_measurement_stable cfg s w now).1.recent_readings) :
    (is_measurement_stable cfg s w now).2 = false ∧
    (is_measurement_stable cfg s w now).1.stable_start_time = none := by
  rw [isStable_window] at hfull hdrift
  have h1 : ¬ (pushWindow cfg.STABLE_READINGS_REQUIRED s.recent_readings
      s.reading_timestamps w now).1.length < cfg.STABLE_READINGS_REQUIRED :=
    not_lt.mpr hfull
  simp [is_measurement_stable, h1, hdrift]

theorem results_false_of_allDrift (cfg : Config) :
    ∀ ps : List (ℚ × ℚ), ∀ s : ExtractorState,
      allWindowsDrift cfg s ps = true →
      ingestResults cfg s ps = List.replicate ps.length false := by
  intro ps
  induction ps with
  | nil => intro s _; rfl
  | cons p rest ih =>
    rcases p with ⟨w, t⟩
    intro s h
    simp only [allWindowsDrift, Bool.and_eq_true, Bool.or_eq_true,
      decide_eq_true_eq] at h
    obtain ⟨hcond, hrest⟩ := h
    simp only [ingestResults, List.length_cons, List.replicate_succ]
    exact List.cons_eq_cons.mpr
      ⟨isStable_false_of_drift cfg s w t hcond, ih _ hrest⟩

/-- C2: whenever the spread of the full N-window exceeds the tolerance, the
ingestion operation returns a non-final result and clears the stability
clock, so the minimum-duration requirement restarts from zero; and along any
sample sequence in which every full window's spread exceeds the tolerance
the detector never returns a final (Stable) result. -/
theorem drift_clears_clock_and_blocks_stable (cfg : Config)
    (s : ExtractorState) (w now : ℚ) (ps : List (ℚ × ℚ))
    (hN : 1 ≤ cfg.STABLE_READINGS_REQUIRED) :
    (cfg.STABLE_READINGS_REQUIRED ≤
        (is_measurement_stable cfg s w now).1.recent_readings.length →
      cfg.WEIGHT_TOLERANCE <
        listMax (is_measurement_stable cfg s w now).1.recent_readings -
        listMin (is_measurement_stable cfg s w now).1.recent_readings →
      (is_measurement_stable cfg s w now).2 = false ∧
      (is_measurement_stable cfg s w now).1.stable_start_time = none) ∧
    (allWindowsDrift cfg s ps = true →
      ingestResults cfg s ps = List.replicate ps.length false) :=
  ⟨fun hfull hdrift => isStable_drift_clears cfg s w now hfull hdrift,
   fun h => results_false_of_allDrift cfg ps s h⟩

/-- Witness for C2: under N = 2 every window of [70, 75, 70] (at times
0, 1, 2) drifts, and the detector indeed answers false three times. -/
theorem drift_blocks_stable_witness :
    ingestResults cfg0 ext0 [(70, 0), (75, 1), (70, 2)] =
      List.replicate 3 false :=
  (drift_clears_clock_and_blocks_stable cfg0 ext0 70 0
    [(70, 0), (75, 1), (70, 2)] (by decide)).2 (by with_unfolding_all decide)

/-! ## C3 and C4: the session controller's persistence guard -/

/-- Once the one-shot stored flag is set, `_handle_measurement` returns
immediately: no event, no store attempt, state untouched. -/
theorem handle_stored_skips (cfg : Config) (s : ExtractorState)
    (data : List ℕ) (now : ℚ) (ok : Bool) (h : s.measurement_stored = true) :
    handle_measurement cfg s data now ok = (s, [], false) := by
  simp [handle_measurement, h]

/-- A successful store attempt sets the stored flag and clears the running
flag. -/
theorem handle_success_sets (cfg : Config) (s : ExtractorState)
    (data : List ℕ) (now : ℚ) (ok : Bool)
    (ha : (handle_measurement cfg s data now ok).2.2 = true)
    (hok : ok = true) :
    (handle_measurement cfg s data now ok).1.measurement_stored = true ∧
    (handle_measurement cfg s data now ok).1.is_running = false := by
  subst hok
  cases hms : s.measurement_stored
  case true =>
    rw [handle_stored_skips cfg s data now true hms] at ha
    simp at ha
  case false =>
    rcases hp : parse_measurement_data data s.age s.height_cm s.gender with _ | m
    · simp [handle_measurement, hms, hp] at ha
    · cases hst : (is_measurement_stable cfg s m.weight now).2
      · simp [handle_measurement, hms, hp, hst] at ha
      · simp [handle_measurement, hms, hp, hst]

/-- With the stored flag already set, a whole run makes no successful
store write. -/
theorem runHandler_stored_zero (cfg : Config) :
    ∀ inputs : List (List ℕ × ℚ × Bool), ∀ s : ExtractorState,
      s.measurement_stored = true → (runHandler cfg s inputs).2 = 0 := by
  intro inputs
  induction inputs with
  | nil => intro s _; rfl
  | cons p rest ih =>
    rcases p with ⟨data, now, ok⟩
    intro s h
    simp only [runHandler, handle_stored_skips cfg s data now ok h]
    simpa using ih s h

/-- Any run of `_handle_measurement` makes at most one successful store
write. -/
theorem runHandler_le_one (cfg : Config) :
    ∀ inputs : List (List ℕ × ℚ × Bool), ∀ s : ExtractorState,
      (runHandler cfg s inputs).2 ≤ 1 := by
  intro inputs
  induction inputs with
  | nil => intro s; simp [runHandler]
  | cons p rest ih =>
    rcases p with ⟨data, now, ok⟩
    intro s
    simp only [runHandler]
    by_cases hsucc : (handle_measurement cfg s data now ok).2.2 = true ∧ ok = true
    · obtain ⟨ha, hok⟩ := hsucc
      have hstored := (handle_success_sets cfg s data now ok ha hok).1
      subst hok
      simp [ha, runHandler_stored_zero cfg rest _ hstored]
    · have hand : ((handle_measurement cfg s data now ok).2.2 && ok) = false := by
        cases h2 : (handle_measurement cfg s data now ok).2.2 <;>
          cases hok : ok <;> simp_all
      simp only [hand, Bool.false_eq_true, if_false, Nat.zero_add]
      exact ih _

/-- C3: per session at most one measurement is ever successfully persisted:
once the one-shot stored flag is set every later notification is ignored
without touching the detector state or the Store (and a whole run then
stores nothing), any run makes at most one successful store write, and a
successful write sets the stored flag and signals the session loop to exit
(`is_running` becomes false). -/
theorem single_store_per_session (cfg : Config) (s : ExtractorState)
    (data : List ℕ) (now : ℚ) (ok : Bool)
    (inputs : List (List ℕ × ℚ × Bool)) :
    (s.measurement_stored = true →
      handle_measurement cfg s data now ok = (s, [], false)) ∧
    (s.measurement_stored = true → (runHandler cfg s inputs).2 = 0) ∧
    (runHandler cfg s inputs).2 ≤ 1 ∧
    ((handle_measurement cfg s data now ok).2.2 = true → ok = true →
      (handle_measurement cfg s data now ok).1.measurement_stored = true ∧
      (handle_measurement cfg s data now ok).1.is_running = false) :=
  ⟨fun h => handle_stored_skips cfg s data now ok h,
   fun h => runHandler_stored_zero cfg inputs s h,
   runHandler_le_one cfg inputs s,
   fun ha hok => handle_success_sets cfg s data now ok ha hok⟩

/-- Witness for C3: with the stored flag set, three further stable
notifications store nothing and leave the state untouched. -/
theorem single_store_per_session_witness :
    handle_measurement cfg0 extStored payload70 0 true =
      (extStored, [], false) ∧
    (runHandler cfg0 extStored demoInputs).2 = 0 :=
  ⟨(single_store_per_session cfg0 extStored payload70 0 true demoInputs).1 rfl,
   (single_store_per_session cfg0 extStored payload70 0 true demoInputs).2.1 rfl⟩

/-- `_is_measurement_stable` only mutates the window, the timestamps and
the stability clock: the running and stored flags pass through. -/
theorem isStable_preserves_flags (cfg : Config) (s : ExtractorState)
    (w now : ℚ) :
    (is_measurement_stable cfg s w now).1.is_running = s.is_running ∧
    (is_measurement_stable cfg s w now).1.measurement_stored =
      s.measurement_stored := by
  simp only [is_measurement_stable]
  split
  · exact ⟨rfl, rfl⟩
  · split
    · exact ⟨rfl, rfl⟩
    · split <;> exact ⟨rfl, rfl⟩

/-- C4 counterexample: a store failure right after a Stable decision leaves
the session running (`is_running` stays true, so the session does not
terminate), emits no status event, and the very next stable notification
attempts the store again — contradicting the claim that the session still
ends and the write is not reattempted. -/
theorem store_failure_counterexample :
    (handle_measurement cfg0 extC4 payload70 10 false).1.is_running = true ∧
    (handle_measurement cfg0 extC4 payload70 10 false).2.1 = [] ∧
    (handle_measurement cfg0
        (handle_measurement cfg0 extC4 payload70 10 false).1
        payload70 11 false).2.2 = true := by
  set_option maxRecDepth 4000 in with_unfolding_all decide

/-- C4 (amended): when the Store write fails after a Stable decision, the
session does not terminate and the failure is silent at the controller
level: `_handle_measurement` emits no status event, leaves the stored flag
unset and the running flag unchanged, and — having attempted the write —
will reattempt it at the next stable sample rather than give up. -/
theorem store_failure_session_continues (cfg : Config) (s : ExtractorState)
    (data : List ℕ) (now : ℚ) (m : ParsedMeasurement)
    (h0 : s.measurement_stored = false)
    (hp : parse_measurement_data data s.age s.height_cm s.gender = some m)
    (hs : (is_measurement_stable cfg s m.weight now).2 = true) :
    handle_measurement cfg s data now false =
      ((is_measurement_stable cfg s m.weight now).1, [], true) ∧
    (handle_measurement cfg s data now false).1.is_running = s.is_running ∧
    (handle_measurement cfg s data now false).1.measurement_stored = false := by
  have heq : handle_measurement cfg s data now false =
      ((is_measurement_stable cfg s m.weight now).1, [], true) := by
    simp [handle_measurement, h0, hp, hs]
  refine ⟨heq, ?_, ?_⟩
  · rw [heq]
    exact (isStable_preserves_flags cfg s m.weight now).1
  · rw [heq]
    simpa [h0] using (isStable_preserves_flags cfg s m.weight now).2

/-- Witness for the amended C4 on a concrete stable session whose store
rejects the write. -/
theorem store_failure_session_continues_witness :
    handle_measurement cfg0 extC4 payload70 10 false =
      ((is_measurement_stable cfg0 extC4 parsed70.weight 10).1, [], true) ∧
    (handle_measurement cfg0 extC4 payload70 10 false).1.is_running =
      extC4.is_running ∧
    (handle_measurement cfg0 extC4 payload70 10 false).1.measurement_stored =
      false := by
  refine store_failure_session_continues cfg0 extC4 payload70 10 parsed70 rfl ?_ ?_
  · have hw : (14000 : ℚ) / 200 = 70 := by norm_num
    simp [parse_measurement_data, payload70, parsed70, extC4, ext0,
          initExtractor, hw]
  · have hw70 : parsed70.weight = 70 := rfl
    rw [hw70]
    norm_num [is_measurement_stable, pushWindow, listMax, listMin, cfg0,
              extC4, ext0, initExtractor]

/-! ## C5 and C6: session control -/

/-- `reset_dead_thread` only ever touches `is_running`, and leaves an
already-idle flag idle. -/
theorem reset_dead_thread_fields (st : AppState) :
    (reset_dead_thread st).inst = st.inst ∧
    (reset_dead_thread st).thread_alive = st.thread_alive ∧
    (st.is_running = false → (reset_dead_thread st).is_running = false) := by
  unfold reset_dead_thread
  rcases hta : st.thread_alive with _ | b
  · simp [hta]
  · cases b
    · simp [hta]
    · simp [hta]

/-- C5 counterexample: `POST /api/stop` with no session running answers the
400 "No measurement in progress" error, not success — stop is not the
always-succeeding idempotent operation the claim states. -/
theorem stop_when_idle_counterexample :
    (stop_measurement initApp).2 = StopOutcome.no_measurement ∧
    (stop_measurement initApp).2 ≠ StopOutcome.stopped := by
  constructor
  · rfl
  · intro h
    simp [stop_measurement, initApp] at h

/-- C5 (amended): starting while a session is Active (live thread and
`is_running` set) fails with the 400 already-running rejection and changes
nothing, and stop succeeds exactly when a session is running: it then
clears `is_running`, while stop with no session running fails with the 400
"No measurement in progress" error instead of succeeding. -/
theorem session_control_semantics (c : AppConfig) (st : AppState)
    (req : StartRequest) :
    (st.thread_alive = some true → st.is_running = true →
      start_measurement c st req = (st, StartOutcome.already_running)) ∧
    (st.is_running = false →
      stop_measurement st = (st, StopOutcome.no_measurement)) ∧
    (st.is_running = true →
      (stop_measurement st).2 = StopOutcome.stopped ∧
      (stop_measurement st).1.is_running = false) := by
  refine ⟨fun ht hr => ?_, fun hr => ?_, fun hr => ?_⟩
  · simp [start_measurement, reset_dead_thread, ht, hr]
  · simp [stop_measurement, hr]
  · simp [stop_measurement, hr]

/-- Witness for the amended C5: start rejected on the active state, stop
rejected on the idle state, stop successful on the active state. -/
theorem session_control_semantics_witness :
    start_measurement appCfg0 activeApp emptyReq =
      (activeApp, StartOutcome.already_running) ∧
    stop_measurement initApp = (initApp, StopOutcome.no_measurement) ∧
    (stop_measurement activeApp).2 = StopOutcome.stopped :=
  ⟨(session_control_semantics appCfg0 activeApp emptyReq).1 rfl rfl,
   (session_control_semantics appCfg0 initApp emptyReq).2.1 rfl,
   ((session_control_semantics appCfg0 activeApp emptyReq).2.2 rfl).1⟩

/-- C6 counterexample: a start request that explicitly supplies age 0 is
not rejected: Python's `age or AGE` defaulting silently replaces the 0 with
the configured default (25), and the session starts with that default. -/
theorem age_zero_replaced_counterexample :
    (start_measurement appCfg0 initApp
        { address := none, age := some 0, height_cm := none, gender := none }).2 =
      StartOutcome.started ∧
    ((start_measurement appCfg0 initApp
        { address := none, age := some 0, height_cm := none, gender := none
        }).1.inst.map InstInfo.inst_age) = some 25 := by
  with_unfolding_all decide

/-- C6 (amended): `start_measurement` validates the effective
(`or`-defaulted) profile before a session starts: a non-positive effective
age, non-positive effective height, or a gender whose lowercase form is
neither "male" nor "female" is rejected with a 400 and no session is
installed, and a valid effective profile starts a session carrying exactly
those effective values; an explicitly supplied negative age reaches
validation and is rejected, but a supplied age of 0 is silently replaced by
the configured default rather than rejected. -/
theorem profile_validation (c : AppConfig) (st : AppState)
    (req : StartRequest) (a : ℤ) (hidle : st.is_running = false) :
    (pyOrStr req.address c.SCALE_MAC ≠ "" → pyOrInt req.age c.AGE ≤ 0 →
      (start_measurement c st req).2 = StartOutcome.invalid_age ∧
      (start_measurement c st req).1.inst = st.inst ∧
      (start_measurement c st req).1.is_running = false) ∧
    (req.age = some a → a < 0 → pyOrInt req.age c.AGE = a) ∧
    pyOrInt (some 0) c.AGE = c.AGE ∧
    (pyOrStr req.address c.SCALE_MAC ≠ "" → 0 < pyOrInt req.age c.AGE →
      pyOrRat req.height_cm c.HEIGHT_CM ≤ 0 →
      (start_measurement c st req).2 = StartOutcome.invalid_height ∧
      (start_measurement c st req).1.inst = st.inst) ∧
    (pyOrStr req.address c.SCALE_MAC ≠ "" → 0 < pyOrInt req.age c.AGE →
      0 < pyOrRat req.height_cm c.HEIGHT_CM →
      pyLower (pyOrStr req.gender c.GENDER) ≠ "male" →
      pyLower (pyOrStr req.gender c.GENDER) ≠ "female" →
      (start_measurement c st req).2 = StartOutcome.invalid_gender ∧
      (start_measurement c st req).1.inst = st.inst) ∧
    (pyOrStr req.address c.SCALE_MAC ≠ "" → 0 < pyOrInt req.age c.AGE →
      0 < pyOrRat req.height_cm c.HEIGHT_CM →
      (pyLower (pyOrStr req.gender c.GENDER) = "male" ∨
       pyLower (pyOrStr req.gender c.GENDER) = "female") →
      (start_measurement c st req).2 = StartOutcome.started ∧
      (start_measurement c st req).1.inst =
        some { inst_running := true,
               inst_address := pyOrStr req.address c.SCALE_MAC,
               inst_age := pyOrInt req.age c.AGE,
               inst_height := pyOrRat req.height_cm c.HEIGHT_CM,
               inst_gender := pyOrStr req.gender c.GENDER } ∧
      (start_measurement c st req).1.is_running = true) := by
  have hr := (reset_dead_thread_fields st).2.2 hidle
  have hinst := (reset_dead_thread_fields st).1
  refine ⟨fun h1 h2 => ?_, fun h1 h2 => ?_, ?_, fun h1 h2 h3 => ?_,
          fun h1 h2 h3 h4 h5 => ?_, fun h1 h2 h3 h4 => ?_⟩
  · simp [start_measurement, hr, h1, h2, hinst]
  · rw [h1]
    simp only [pyOrInt]
    rw [if_neg (by omega : ¬ a = 0)]
  · simp [pyOrInt]
  · simp [start_measurement, hr, h1, not_le.mpr h2, h3, hinst]
  · simp [start_measurement, hr, h1, not_le.mpr h2, not_le.mpr h3, h4, h5,
          hinst]
  · have hg : ¬ (pyOrStr req.gender c.GENDER = "" ∨
        (pyLower (pyOrStr req.gender c.GENDER) ≠ "male" ∧
         pyLower (pyOrStr req.gender c.GENDER) ≠ "female")) := by
      rcases h4 with h | h
      · rintro (he | ⟨hm, _⟩)
        · rw [he] at h
          exact absurd h (by decide)
        · exact hm h
      · rintro (he | ⟨_, hf⟩)
        · rw [he] at h
          exact absurd h (by decide)
        · exact hf h
    simp [start_measurement, hr, h1, not_le.mpr h2, not_le.mpr h3, hg]

/-- Witness for the amended C6: a negative supplied age is rejected with
the invalid-age 400 and no session is installed. -/
theorem profile_validation_witness :
    (start_measurement appCfg0 initApp
        { address := none, age := some (-5), height_cm := none,
          gender := none }).2 = StartOutcome.invalid_age ∧
    (start_measurement appCfg0 initApp
        { address := none, age := some (-5), height_cm := none,
          gender := none }).1.inst = initApp.inst ∧
    (start_measurement appCfg0 initApp
        { address := none, age := some (-5), height_cm := none,
          gender := none }).1.is_running = false :=
  (profile_validation appCfg0 initApp
    { address := none, age := some (-5), height_cm := none, gender := none }
    (-5) rfl).1 (by decide) (by decide)
